import Mathlib

/-!
Shallow embedding of `src/core/differentiable_augmentation/augment.py`
(class `AugmentPipe`, method `forward`).

Machine floating-point scalars are modelled as rationals (every float value
is a rational).  The transcendental library primitives consumed by the code
(`torch.cos`, `torch.sin`, `torch.sqrt`, `torch.erfinv`, `torch.exp2`,
`np.pi`) and the fixed wavelet-derived filter bank are black-box external
collaborators; they are passed in as an explicit record `MathOps`, so that
theorems quantify over every instantiation and therefore hold for the
floating-point implementation in particular.  Random draws are an explicit
tape (`RandTape`): each `torch.rand` / `torch.randn` call site of the source
reads a dedicated field of the tape, one value per batch element.
-/

attribute [local semireducible] Rat.add Rat.mul Rat.inv Rat.sub Rat.ofScientific

/-- Modelled from the spec (sections 1, 4.2, 6): the black-box math
primitives of the tensor library and the fixed 4-band filter bank
`Hz_fbank`, whose wavelet coefficient values live outside `src/`.
Theorems quantify over every instantiation of this record. -/
structure MathOps where
  pi : ℚ
  cos : ℚ → ℚ
  sin : ℚ → ℚ
  sqrt : ℚ → ℚ
  erfinv : ℚ → ℚ
  exp2 : ℚ → ℚ
  fbank : Fin 4 → Nat → ℚ

/-- Shape of a rank-4 batch tensor `[batch, channels, height, width]`. -/
structure Shape where
  n : Nat
  c : Nat
  h : Nat
  w : Nat
deriving DecidableEq

/-- A rank-4 batch tensor: a shape plus pixel data indexed by
(batch, channel, row, column).  The `images.ndim == 4` assertion of the
source holds by construction of this type. -/
structure Tensor where
  shape : Shape
  data : Nat → Nat → Nat → Nat → ℚ

/-- The pipeline configuration: the per-augmentation probability multipliers
and distribution parameters of `AugmentPipe.__init__` (source lines 24-99),
with the default values of the source (as exact rationals). -/
structure AugmentPipe where
  xflip : ℚ := 0
  rotate90 : ℚ := 0
  xint : ℚ := 0
  xint_max : ℚ := 1/8
  scale : ℚ := 0
  rotate : ℚ := 0
  aniso : ℚ := 0
  xfrac : ℚ := 0
  scale_std : ℚ := 1/5
  rotate_max : ℚ := 1
  aniso_std : ℚ := 1/5
  xfrac_std : ℚ := 1/8
  brightness : ℚ := 0
  contrast : ℚ := 0
  lumaflip : ℚ := 0
  hue : ℚ := 0
  saturation : ℚ := 0
  brightness_std : ℚ := 1/5
  contrast_std : ℚ := 1/2
  hue_max : ℚ := 1
  saturation_std : ℚ := 1
  imgfilter : ℚ := 0
  imgfilter_bands : Fin 4 → ℚ := fun _ => 1
  imgfilter_std : ℚ := 1
  noise : ℚ := 0
  cutout : ℚ := 0
  noise_std : ℚ := 1/10
  cutout_size : ℚ := 1/2

/-- The random tape: one field per `torch.rand` / `torch.randn` call site of
`forward`, indexed by batch element (and pixel for the additive noise).
Fields suffixed `V` are magnitude draws, fields suffixed `U` are the
uniform gate draws compared against `probability * strength`. -/
structure RandTape where
  xflipV : Nat → ℚ
  xflipU : Nat → ℚ
  rot90V : Nat → ℚ
  rot90U : Nat → ℚ
  xintVx : Nat → ℚ
  xintVy : Nat → ℚ
  xintU : Nat → ℚ
  scaleV : Nat → ℚ
  scaleU : Nat → ℚ
  rotPreV : Nat → ℚ
  rotPreU : Nat → ℚ
  anisoV : Nat → ℚ
  anisoU : Nat → ℚ
  rotPostV : Nat → ℚ
  rotPostU : Nat → ℚ
  xfracVx : Nat → ℚ
  xfracVy : Nat → ℚ
  xfracU : Nat → ℚ
  brightV : Nat → ℚ
  brightU : Nat → ℚ
  contrastV : Nat → ℚ
  contrastU : Nat → ℚ
  lumaV : Nat → ℚ
  lumaU : Nat → ℚ
  hueV : Nat → ℚ
  hueU : Nat → ℚ
  satV : Nat → ℚ
  satU : Nat → ℚ
  bandV : Fin 4 → Nat → ℚ
  bandU : Fin 4 → Nat → ℚ
  noiseV : Nat → ℚ
  noiseU : Nat → ℚ
  noisePix : Nat → Nat → Nat → Nat → ℚ
  cutoutU : Nat → ℚ
  cutoutCx : Nat → ℚ
  cutoutCy : Nat → ℚ

/-- The differentiability-preserving soft branch of every augmentation gate
(`torch.where(torch.rand(..) < probability * strength, value, identity)`,
spec section 4.1): select the sampled value when the uniform draw is below
the threshold, the identity value otherwise. -/
def gateSelect {α : Type} (u thr : ℚ) (v idv : α) : α :=
  if u < thr then v else idv

abbrev Mat3 := Matrix (Fin 3) (Fin 3) ℚ

abbrev Mat4 := Matrix (Fin 4) (Fin 4) ℚ

/-- Modelled from the spec (section 4.2): helper `translate2d`, a pure
2D homogeneous translation matrix (the helper itself is not under `src/`). -/
def translate2d (tx ty : ℚ) : Mat3 :=
  Matrix.of ![![1, 0, tx], ![0, 1, ty], ![0, 0, 1]]

/-- Modelled from the spec (section 4.2): helper `scale2d`. -/
def scale2d (sx sy : ℚ) : Mat3 :=
  Matrix.of ![![sx, 0, 0], ![0, sy, 0], ![0, 0, 1]]

/-- Modelled from the spec (section 4.2): helper `rotate2d`. -/
def rotate2d (ops : MathOps) (t : ℚ) : Mat3 :=
  Matrix.of ![![ops.cos t, -(ops.sin t), 0], ![ops.sin t, ops.cos t, 0], ![0, 0, 1]]

/-- Modelled from the spec (section 4.2): closed-form inverse, negate the
translation. -/
def translate2d_inv (tx ty : ℚ) : Mat3 := translate2d (-tx) (-ty)

/-- Modelled from the spec (section 4.2): closed-form inverse, reciprocal
scale factors. -/
def scale2d_inv (sx sy : ℚ) : Mat3 := scale2d (1/sx) (1/sy)

/-- Modelled from the spec (section 4.2): closed-form inverse, negate the
angle. -/
def rotate2d_inv (ops : MathOps) (t : ℚ) : Mat3 := rotate2d ops (-t)

/-- Modelled from the spec (section 4.2): helper `translate3d` for 4x4
homogeneous color matrices. -/
def translate3d (tx ty tz : ℚ) : Mat4 :=
  Matrix.of ![![1, 0, 0, tx], ![0, 1, 0, ty], ![0, 0, 1, tz], ![0, 0, 0, 1]]

/-- Modelled from the spec (section 4.2): helper `scale3d`. -/
def scale3d (sx sy sz : ℚ) : Mat4 :=
  Matrix.of ![![sx, 0, 0, 0], ![0, sy, 0, 0], ![0, 0, sz, 0], ![0, 0, 0, 1]]

/-- Modelled from the spec (section 4.2): helper `rotate3d`, the Rodrigues
rotation matrix about the unit axis `(vx, vy, vz)`. -/
def rotate3d (ops : MathOps) (vx vy vz t : ℚ) : Mat4 :=
  let s := ops.sin t
  let c := ops.cos t
  let cc := 1 - c
  Matrix.of ![![vx*vx*cc + c, vx*vy*cc - vz*s, vx*vz*cc + vy*s, 0],
              ![vy*vx*cc + vz*s, vy*vy*cc + c, vy*vz*cc - vx*s, 0],
              ![vz*vx*cc - vy*s, vz*vy*cc + vx*s, vz*vz*cc + c, 0],
              ![0, 0, 0, 1]]

/-- The outer product `v.ger(v)` of the luma axis
`v = [1, 1, 1, 0] / sqrt(3)` (source line 307). -/
def lumaOuter (ops : MathOps) : Mat4 :=
  let q := 1 / ops.sqrt 3
  Matrix.of ![![q*q, q*q, q*q, 0], ![q*q, q*q, q*q, 0], ![q*q, q*q, q*q, 0], ![0, 0, 0, 0]]

/-- Per-stage rotation-gate probability (source line 183):
`p_rot = 1 - sqrt((1 - rotate * p).clamp(0, 1))`, shared by the
pre-rotation and the post-rotation gates. -/
def pRot (ops : MathOps) (cfg : AugmentPipe) (p : ℚ) : ℚ :=
  1 - ops.sqrt (min (max (1 - cfg.rotate * p) 0) 1)

/-- x-flip parameter (source lines 137-142): `i = floor(rand * 2)`, gated by
`rand < xflip * p`, overridden on the debug path by `floor(debug * 2)`. -/
def xflipI (cfg : AugmentPipe) (p : ℚ) (rng : RandTape) (debug : Option ℚ) (b : Nat) : ℤ :=
  let i := ⌊rng.xflipV b * 2⌋
  let i := gateSelect (rng.xflipU b) (cfg.xflip * p) i 0
  match debug with
  | some d => ⌊d * 2⌋
  | none => i

/-- 90-degree-rotation parameter (source lines 146-151): `i = floor(rand * 4)`,
gated, overridden on the debug path by `floor(debug * 4)`. -/
def rot90I (cfg : AugmentPipe) (p : ℚ) (rng : RandTape) (debug : Option ℚ) (b : Nat) : ℤ :=
  let i := ⌊rng.rot90V b * 4⌋
  let i := gateSelect (rng.rot90U b) (cfg.rotate90 * p) i 0
  match debug with
  | some d => ⌊d * 4⌋
  | none => i

/-- Integer-translation parameter pair (source lines 155-162):
`t = (rand([b,2]) * 2 - 1) * xint_max`, both coordinates gated by one
shared draw, overridden on the debug path by `(debug*2-1) * xint_max`. -/
def xintT (cfg : AugmentPipe) (p : ℚ) (rng : RandTape) (debug : Option ℚ) (b : Nat) : ℚ × ℚ :=
  let tx := (rng.xintVx b * 2 - 1) * cfg.xint_max
  let ty := (rng.xintVy b * 2 - 1) * cfg.xint_max
  let tx := gateSelect (rng.xintU b) (cfg.xint * p) tx 0
  let ty := gateSelect (rng.xintU b) (cfg.xint * p) ty 0
  match debug with
  | some d => ((d * 2 - 1) * cfg.xint_max, (d * 2 - 1) * cfg.xint_max)
  | none => (tx, ty)

/-- Isotropic-scale parameter (source lines 171-178):
`s = exp2(randn * scale_std)`, gated with identity value 1, debug value
`exp2(erfinv(debug*2-1) * scale_std)`. -/
def scaleS (ops : MathOps) (cfg : AugmentPipe) (p : ℚ) (rng : RandTape) (debug : Option ℚ) (b : Nat) : ℚ :=
  let s := ops.exp2 (rng.scaleV b * cfg.scale_std)
  let s := gateSelect (rng.scaleU b) (cfg.scale * p) s 1
  match debug with
  | some d => ops.exp2 (ops.erfinv (d * 2 - 1) * cfg.scale_std)
  | none => s

/-- Pre-rotation angle (source lines 184-191): uniform in
`[-pi*rotate_max, pi*rotate_max)`, gated by `rand < p_rot`. -/
def rotPreTheta (ops : MathOps) (cfg : AugmentPipe) (p : ℚ) (rng : RandTape) (debug : Option ℚ) (b : Nat) : ℚ :=
  let t := (rng.rotPreV b * 2 - 1) * ops.pi * cfg.rotate_max
  let t := gateSelect (rng.rotPreU b) (pRot ops cfg p) t 0
  match debug with
  | some d => (d * 2 - 1) * ops.pi * cfg.rotate_max
  | none => t

/-- Anisotropic-scale parameter (source lines 195-202). -/
def anisoS (ops : MathOps) (cfg : AugmentPipe) (p : ℚ) (rng : RandTape) (debug : Option ℚ) (b : Nat) : ℚ :=
  let s := ops.exp2 (rng.anisoV b * cfg.aniso_std)
  let s := gateSelect (rng.anisoU b) (cfg.aniso * p) s 1
  match debug with
  | some d => ops.exp2 (ops.erfinv (d * 2 - 1) * cfg.aniso_std)
  | none => s

/-- Post-rotation angle (source lines 206-212): gated by the same `p_rot`
threshold as the pre-rotation; on the debug path it is set to zero. -/
def rotPostTheta (ops : MathOps) (cfg : AugmentPipe) (p : ℚ) (rng : RandTape) (debug : Option ℚ) (b : Nat) : ℚ :=
  let t := (rng.rotPostV b * 2 - 1) * ops.pi * cfg.rotate_max
  let t := gateSelect (rng.rotPostU b) (pRot ops cfg p) t 0
  match debug with
  | some _ => 0
  | none => t

/-- Fractional-translation parameter pair (source lines 216-222):
`t = randn([b,2]) * xfrac_std`, both coordinates gated by one shared draw. -/
def xfracT (ops : MathOps) (cfg : AugmentPipe) (p : ℚ) (rng : RandTape) (debug : Option ℚ) (b : Nat) : ℚ × ℚ :=
  let tx := rng.xfracVx b * cfg.xfrac_std
  let ty := rng.xfracVy b * cfg.xfrac_std
  let tx := gateSelect (rng.xfracU b) (cfg.xfrac * p) tx 0
  let ty := gateSelect (rng.xfracU b) (cfg.xfrac * p) ty 0
  match debug with
  | some d => (ops.erfinv (d * 2 - 1) * cfg.xfrac_std, ops.erfinv (d * 2 - 1) * cfg.xfrac_std)
  | none => (tx, ty)

/-- The accumulated inverse geometric transform of one batch element
(source lines 133-223): `G_inv` starts as the identity and is
right-multiplied by each sampled inverse in the fixed order
flip, 90-degree rotation, integer translation, isotropic scale,
pre-rotation, anisotropic scale, post-rotation, fractional translation;
each stage runs only when its probability multiplier is positive. -/
def geomGInv (ops : MathOps) (cfg : AugmentPipe) (p : ℚ) (rng : RandTape) (debug : Option ℚ)
    (h w : Nat) (b : Nat) : Mat3 :=
  let G0 : Mat3 := 1
  let G1 := if 0 < cfg.xflip then
      G0 * scale2d_inv (1 - 2 * ((xflipI cfg p rng debug b : ℤ) : ℚ)) 1 else G0
  let G2 := if 0 < cfg.rotate90 then
      G1 * rotate2d_inv ops (-(ops.pi / 2) * ((rot90I cfg p rng debug b : ℤ) : ℚ)) else G1
  let G3 := if 0 < cfg.xint then
      G2 * translate2d_inv ((round ((xintT cfg p rng debug b).1 * w) : ℤ) : ℚ)
        ((round ((xintT cfg p rng debug b).2 * h) : ℤ) : ℚ) else G2
  let G4 := if 0 < cfg.scale then
      G3 * scale2d_inv (scaleS ops cfg p rng debug b) (scaleS ops cfg p rng debug b) else G3
  let G5 := if 0 < cfg.rotate then
      G4 * rotate2d_inv ops (-(rotPreTheta ops cfg p rng debug b)) else G4
  let G6 := if 0 < cfg.aniso then
      G5 * scale2d_inv (anisoS ops cfg p rng debug b) (1 / anisoS ops cfg p rng debug b) else G5
  let G7 := if 0 < cfg.rotate then
      G6 * rotate2d_inv ops (-(rotPostTheta ops cfg p rng debug b)) else G6
  let G8 := if 0 < cfg.xfrac then
      G7 * translate2d_inv ((xfracT ops cfg p rng debug b).1 * w)
        ((xfracT ops cfg p rng debug b).2 * h) else G7
  G8

/-- Whether any geometric stage was entered this call.  The source tracks
this by object identity (`G_inv is not I_3`, line 230): `G_inv` is rebound
exactly when some geometric block executed, i.e. when some geometric
probability multiplier is positive — independently of the sampled values. -/
abbrev geomTouched (cfg : AugmentPipe) : Prop :=
  0 < cfg.xflip ∨ 0 < cfg.rotate90 ∨ 0 < cfg.xint ∨ 0 < cfg.scale ∨
    0 < cfg.rotate ∨ 0 < cfg.aniso ∨ 0 < cfg.xfrac

/-- Length of the orthogonal geometric low-pass filter `Hz_geom`.  Modelled
from the spec (section 6): a length-12 symmetric wavelet (the coefficient
table `wavelets` is not under `src/`; only its length matters here). -/
def HzGeomLen : Nat := 12

/-- `Hz_pad = Hz_geom.shape[0] // 4` (source line 238). -/
def HzPad : Nat := HzGeomLen / 4

/-- Single-reflection index for reflect padding; padding amounts are clamped
to at most `dim - 1` by the margin computation, so one reflection suffices. -/
def reflectIdx (n : Nat) (i : ℤ) : Nat :=
  if i < 0 then (-i).toNat else if (n : ℤ) ≤ i then (2 * n - 2 - i).toNat else i.toNat

/-- Modelled from the spec (section 4.3 step 2): the black-box reflect-pad
primitive `torch.nn.functional.pad(mode='reflect')`.  The shape contract
(each spatial dimension grows by the two padding amounts) is exact; the
reflected content is the standard single reflection. -/
def padReflect (img : Tensor) (mx0 mx1 my0 my1 : Nat) : Tensor :=
  ⟨⟨img.shape.n, img.shape.c, img.shape.h + my0 + my1, img.shape.w + mx0 + mx1⟩,
    fun b c y x =>
      img.data b c (reflectIdx img.shape.h ((y : ℤ) - my0)) (reflectIdx img.shape.w ((x : ℤ) - mx0))⟩

/-- Modelled from the spec (section 4.3 step 3): the black-box anti-aliased
2x upsampling primitive `upfirdn2d.upsample2d`.  The shape contract (both
spatial dimensions double) is exact; the fixed low-pass filtering is an
excluded external kernel, so the content is modelled as sample replication. -/
def upsample2x (img : Tensor) : Tensor :=
  ⟨⟨img.shape.n, img.shape.c, 2 * img.shape.h, 2 * img.shape.w⟩,
    fun b c y x => img.data b c (y / 2) (x / 2)⟩

/-- Modelled from the spec (section 4.3 step 4): the black-box resampling
primitive (`affine_grid` + `grid_sample`).  Its output shape is exactly the
`shape` argument of the source (line 264); the interpolation itself is an
excluded external kernel, so the content model passes samples through. -/
def gridSample (G : Nat → Mat3) (tgt : Shape) (img : Tensor) : Tensor :=
  ⟨tgt, fun b c y x =>
    let _ := G b
    img.data b c y x⟩

/-- Modelled from the spec (section 4.3 step 5): the black-box primitive
`upfirdn2d.downsample2d(down=2, padding=-Hz_pad*2)`.  Shape contract: each
spatial dimension maps to `(dim + 2 * padding) / 2`, that is
`(dim - 4*Hz_pad) / 2`, cropping back to the original size. -/
def downsample2x (img : Tensor) : Tensor :=
  ⟨⟨img.shape.n, img.shape.c, (img.shape.h - 4 * HzPad) / 2, (img.shape.w - 4 * HzPad) / 2⟩,
    fun b c y x => img.data b c (2 * y) (2 * x)⟩

/-- Largest element of a list of rationals (zero for the empty list; the
result is clamped below by zero afterwards, as in source line 246). -/
def qmax (l : List ℚ) : ℚ := l.foldr max 0

/-- The four image-corner points `(+-cx, +-cy)` (source line 235). -/
def cornerPts (cx cy : ℚ) : List (ℚ × ℚ) :=
  [(-cx, -cy), (cx, -cy), (cx, cy), (-cx, cy)]

/-- Padding margins `(mx0, my0, mx1, my1)` of the geometric executor
(source lines 232-249): transform the four image corners of every batch
element by `G_inv`, take componentwise maxima of the (negated) coordinates,
add `Hz_pad*2 - c`, clamp to `[0, dim-1]`, and take ceilings. -/
def geomMargins (G : Nat → Mat3) (n h w : Nat) : Nat × Nat × Nat × Nat :=
  let cx : ℚ := ((w : ℚ) - 1) / 2
  let cy : ℚ := ((h : ℚ) - 1) / 2
  let pts := (List.range n).flatMap (fun b =>
    (cornerPts cx cy).map (fun pc =>
      ((G b).mulVec ![pc.1, pc.2, 1] 0, (G b).mulVec ![pc.1, pc.2, 1] 1)))
  let adj : ℚ → ℚ → ℚ → Nat := fun m base lim =>
    (⌈min (max (m + (2 * (HzPad : ℚ) - base)) 0) lim⌉).toNat
  (adj (qmax (pts.map (fun q => -q.1))) cx ((w : ℚ) - 1),
   adj (qmax (pts.map (fun q => -q.2))) cy ((h : ℚ) - 1),
   adj (qmax (pts.map (fun q => q.1))) cx ((w : ℚ) - 1),
   adj (qmax (pts.map (fun q => q.2))) cy ((h : ℚ) - 1))

/-- The geometric executor (source lines 229-274).  It is a no-op exactly
when no geometric block was entered (`G_inv is not I_3`); otherwise it pads,
upsamples, resamples once through the accumulated matrix, and downsamples
with negative padding back to the original size. -/
def geomExecute (ops : MathOps) (cfg : AugmentPipe) (p : ℚ) (rng : RandTape) (debug : Option ℚ)
    (img : Tensor) : Tensor :=
  if geomTouched cfg then
    let h := img.shape.h
    let w := img.shape.w
    let G : Nat → Mat3 := fun b => geomGInv ops cfg p rng debug h w b
    let m := geomMargins G img.shape.n h w
    let mx0 := m.1
    let my0 := m.2.1
    let mx1 := m.2.2.1
    let my1 := m.2.2.2
    let padded := padReflect img mx0 mx1 my0 my1
    let G1 : Nat → Mat3 := fun b =>
      translate2d (((mx0 : ℚ) - mx1) / 2) (((my0 : ℚ) - my1) / 2) * G b
    let up := upsample2x padded
    let G2 : Nat → Mat3 := fun b => scale2d 2 2 * G1 b * scale2d_inv 2 2
    let G3 : Nat → Mat3 := fun b =>
      translate2d (-(1/2)) (-(1/2)) * G2 b * translate2d_inv (-(1/2)) (-(1/2))
    let tgt : Shape := ⟨img.shape.n, img.shape.c, (h + HzPad * 2) * 2, (w + HzPad * 2) * 2⟩
    let G4 : Nat → Mat3 := fun b =>
      scale2d (2 / (up.shape.w : ℚ)) (2 / (up.shape.h : ℚ)) * G3 b *
        scale2d_inv (2 / (tgt.w : ℚ)) (2 / (tgt.h : ℚ))
    downsample2x (gridSample G4 tgt up)
  else img

/-- Brightness parameter (source lines 285-291): `b = randn * brightness_std`,
gated with identity value 0, debug value `erfinv(debug*2-1) * brightness_std`. -/
def brightB (ops : MathOps) (cfg : AugmentPipe) (p : ℚ) (rng : RandTape) (debug : Option ℚ) (b : Nat) : ℚ :=
  let v := rng.brightV b * cfg.brightness_std
  let v := gateSelect (rng.brightU b) (cfg.brightness * p) v 0
  match debug with
  | some d => ops.erfinv (d * 2 - 1) * cfg.brightness_std
  | none => v

/-- Contrast parameter (source lines 295-302): `c = exp2(randn * contrast_std)`,
gated with identity value 1. -/
def contrastC (ops : MathOps) (cfg : AugmentPipe) (p : ℚ) (rng : RandTape) (debug : Option ℚ) (b : Nat) : ℚ :=
  let v := ops.exp2 (rng.contrastV b * cfg.contrast_std)
  let v := gateSelect (rng.contrastU b) (cfg.contrast * p) v 1
  match debug with
  | some d => ops.exp2 (ops.erfinv (d * 2 - 1) * cfg.contrast_std)
  | none => v

/-- Luma-flip parameter (source lines 309-313): `i = floor(rand * 2)`, gated. -/
def lumaI (cfg : AugmentPipe) (p : ℚ) (rng : RandTape) (debug : Option ℚ) (b : Nat) : ℤ :=
  let i := ⌊rng.lumaV b * 2⌋
  let i := gateSelect (rng.lumaU b) (cfg.lumaflip * p) i 0
  match debug with
  | some d => ⌊d * 2⌋
  | none => i

/-- Hue-rotation angle (source lines 318-324). -/
def hueTheta (ops : MathOps) (cfg : AugmentPipe) (p : ℚ) (rng : RandTape) (debug : Option ℚ) (b : Nat) : ℚ :=
  let t := (rng.hueV b * 2 - 1) * ops.pi * cfg.hue_max
  let t := gateSelect (rng.hueU b) (cfg.hue * p) t 0
  match debug with
  | some d => (d * 2 - 1) * ops.pi * cfg.hue_max
  | none => t

/-- Saturation parameter (source lines 329-335). -/
def satS (ops : MathOps) (cfg : AugmentPipe) (p : ℚ) (rng : RandTape) (debug : Option ℚ) (b : Nat) : ℚ :=
  let v := ops.exp2 (rng.satV b * cfg.saturation_std)
  let v := gateSelect (rng.satU b) (cfg.saturation * p) v 1
  match debug with
  | some d => ops.exp2 (ops.erfinv (d * 2 - 1) * cfg.saturation_std)
  | none => v

/-- Brightness accumulation step (source line 292): `C = translate3d(b,b,b) @ C`
when the brightness multiplier is positive. -/
def brightnessStage (ops : MathOps) (cfg : AugmentPipe) (p : ℚ) (rng : RandTape) (debug : Option ℚ)
    (b : Nat) (C : Mat4) : Mat4 :=
  if 0 < cfg.brightness then
    translate3d (brightB ops cfg p rng debug b) (brightB ops cfg p rng debug b)
      (brightB ops cfg p rng debug b) * C
  else C

/-- Contrast accumulation step (source line 303). -/
def contrastStage (ops : MathOps) (cfg : AugmentPipe) (p : ℚ) (rng : RandTape) (debug : Option ℚ)
    (b : Nat) (C : Mat4) : Mat4 :=
  if 0 < cfg.contrast then
    scale3d (contrastC ops cfg p rng debug b) (contrastC ops cfg p rng debug b)
      (contrastC ops cfg p rng debug b) * C
  else C

/-- Luma-flip accumulation step (source line 314): Householder reflection
`(I_4 - 2 * v.ger(v) * i) @ C`. -/
def lumaflipStage (ops : MathOps) (cfg : AugmentPipe) (p : ℚ) (rng : RandTape) (debug : Option ℚ)
    (b : Nat) (C : Mat4) : Mat4 :=
  if 0 < cfg.lumaflip then
    (1 - (2 * ((lumaI cfg p rng debug b : ℤ) : ℚ)) • lumaOuter ops) * C
  else C

/-- Hue accumulation step (source lines 317-325): runs only for more than
one channel; rotates around the luma axis. -/
def hueStage (ops : MathOps) (cfg : AugmentPipe) (p : ℚ) (rng : RandTape) (debug : Option ℚ)
    (nc b : Nat) (C : Mat4) : Mat4 :=
  if 0 < cfg.hue ∧ 1 < nc then
    rotate3d ops (1 / ops.sqrt 3) (1 / ops.sqrt 3) (1 / ops.sqrt 3)
      (hueTheta ops cfg p rng debug b) * C
  else C

/-- Saturation accumulation step (source lines 328-336): runs only for more
than one channel; `C = (v.ger(v) + (I_4 - v.ger(v)) * s) @ C`. -/
def satStage (ops : MathOps) (cfg : AugmentPipe) (p : ℚ) (rng : RandTape) (debug : Option ℚ)
    (nc b : Nat) (C : Mat4) : Mat4 :=
  if 0 < cfg.saturation ∧ 1 < nc then
    (lumaOuter ops + satS ops cfg p rng debug b • (1 - lumaOuter ops)) * C
  else C

/-- The accumulated color transform of one batch element (source lines
281-336): identity, then brightness, contrast, luma flip, hue rotation and
saturation in that order, each left-multiplied onto `C`. -/
def colorC (ops : MathOps) (cfg : AugmentPipe) (p : ℚ) (rng : RandTape) (debug : Option ℚ)
    (nc b : Nat) : Mat4 :=
  satStage ops cfg p rng debug nc b
    (hueStage ops cfg p rng debug nc b
      (lumaflipStage ops cfg p rng debug b
        (contrastStage ops cfg p rng debug b
          (brightnessStage ops cfg p rng debug b 1))))

/-- Whether any color block was entered this call; mirrors the source
object-identity test `C is not I_4` (line 343): `C` is rebound exactly when
some color block executed (hue and saturation additionally require more
than one channel). -/
abbrev colorTouched (cfg : AugmentPipe) (nc : Nat) : Prop :=
  0 < cfg.brightness ∨ 0 < cfg.contrast ∨ 0 < cfg.lumaflip ∨
    (0 < cfg.hue ∧ 1 < nc) ∨ (0 < cfg.saturation ∧ 1 < nc)

/-- The invalid-input message of the color executor (source line 353). -/
def colorErrMsg : String := "Image must be RGB (3 channels) or L (1 channel)"

/-- The color executor (source lines 342-354): skipped when no color block
was entered; applies the 3x4 affine part of `C` to RGB images, the averaged
scalar affine form to single-channel images, and signals the invalid-input
condition for any other channel count. -/
def colorExecute (ops : MathOps) (cfg : AugmentPipe) (p : ℚ) (rng : RandTape) (debug : Option ℚ)
    (img : Tensor) : Except String Tensor :=
  if colorTouched cfg img.shape.c then
    if img.shape.c = 3 then
      .ok ⟨img.shape, fun b c y x =>
        let C := colorC ops cfg p rng debug img.shape.c b
        let r := img.data b 0 y x
        let g := img.data b 1 y x
        let bl := img.data b 2 y x
        if c = 0 then C 0 0 * r + C 0 1 * g + C 0 2 * bl + C 0 3
        else if c = 1 then C 1 0 * r + C 1 1 * g + C 1 2 * bl + C 1 3
        else C 2 0 * r + C 2 1 * g + C 2 2 * bl + C 2 3⟩
    else if img.shape.c = 1 then
      .ok ⟨img.shape, fun b c y x =>
        let C := colorC ops cfg p rng debug img.shape.c b
        let a := (C 0 0 + C 0 1 + C 0 2 + C 1 0 + C 1 1 + C 1 2 + C 2 0 + C 2 1 + C 2 2) / 3
        let t := (C 0 3 + C 1 3 + C 2 3) / 3
        img.data b c y x * a + t⟩
    else .error colorErrMsg
  else .ok img

/-- Expected per-band power spectrum `[10,1,1,1]/13` (source lines 364-365). -/
def expectedPower (i : Fin 4) : ℚ := if i = 0 then 10/13 else 1/13

/-- Sum of a 4-vector of rationals. -/
def sum4 (f : Fin 4 → ℚ) : ℚ := f 0 + f 1 + f 2 + f 3

/-- Per-band amplification factor `t_i` (source lines 371-377):
`exp2(randn * imgfilter_std)` gated by
`rand < imgfilter * p * band_strength`; on the debug path it is the
deterministic value when the band strength is positive, else 1. -/
def bandT (ops : MathOps) (cfg : AugmentPipe) (p : ℚ) (rng : RandTape) (debug : Option ℚ)
    (i : Fin 4) (b : Nat) : ℚ :=
  let t := ops.exp2 (rng.bandV i b * cfg.imgfilter_std)
  let t := gateSelect (rng.bandU i b) (cfg.imgfilter * p * cfg.imgfilter_bands i) t 1
  match debug with
  | some d =>
    if 0 < cfg.imgfilter_bands i then ops.exp2 (ops.erfinv (d * 2 - 1) * cfg.imgfilter_std)
    else 1
  | none => t

/-- One iteration of the band loop (source lines 378-386): build the
temporary gain vector with the i-th band amplified, renormalize its
expected power, and accumulate it into the global gain vector. -/
def bandStep (ops : MathOps) (cfg : AugmentPipe) (p : ℚ) (rng : RandTape) (debug : Option ℚ)
    (b : Nat) (i : Fin 4) (g : Fin 4 → ℚ) : Fin 4 → ℚ :=
  let ti := bandT ops cfg p rng debug i b
  let t : Fin 4 → ℚ := fun j => if j = i then ti else 1
  let denom := ops.sqrt (sum4 (fun j => expectedPower j * t j ^ 2))
  fun j => g j * (t j / denom)

/-- The combined per-batch-element band gains after all four loop
iterations (source lines 369-386). -/
def filterGains (ops : MathOps) (cfg : AugmentPipe) (p : ℚ) (rng : RandTape) (debug : Option ℚ)
    (b : Nat) : Fin 4 → ℚ :=
  bandStep ops cfg p rng debug b 3
    (bandStep ops cfg p rng debug b 2
      (bandStep ops cfg p rng debug b 1
        (bandStep ops cfg p rng debug b 0 (fun _ => 1))))

/-- Tap count of the filter bank `Hz_fbank`.  Determined by the construction
of source lines 106-118 from the length-4 wavelet (spec section 6): widths
1, 7, 19, 43 over the three cascade iterations. -/
def fbankTaps : Nat := 43

/-- Combined amplification filter `Hz_prime = g @ Hz_fbank` (source line 390). -/
def hzPrime (ops : MathOps) (cfg : AugmentPipe) (p : ℚ) (rng : RandTape) (debug : Option ℚ)
    (b tap : Nat) : ℚ :=
  sum4 (fun i => filterGains ops cfg p rng debug b i * ops.fbank i tap)

/-- Horizontal 1D convolution with a per-batch-element kernel (source line
402, weight `Hz_prime.unsqueeze(2)`): valid cross-correlation along x. -/
def convHoriz (taps : Nat) (ker : Nat → Nat → ℚ) (img : Tensor) : Tensor :=
  ⟨⟨img.shape.n, img.shape.c, img.shape.h, img.shape.w - (taps - 1)⟩,
    fun b c y x => (Finset.range taps).sum (fun k => ker b k * img.data b c y (x + k))⟩

/-- Vertical 1D convolution with a per-batch-element kernel (source line
404, weight `Hz_prime.unsqueeze(3)`). -/
def convVert (taps : Nat) (ker : Nat → Nat → ℚ) (img : Tensor) : Tensor :=
  ⟨⟨img.shape.n, img.shape.c, img.shape.h - (taps - 1), img.shape.w⟩,
    fun b c y x => (Finset.range taps).sum (fun k => ker b k * img.data b c (y + k) x)⟩

/-- The image-space filtering stage (source lines 360-406): when the
imgfilter multiplier is positive, reflect-pad by half the tap count and
apply the combined amplification filter as two separable 1D convolutions. -/
def imgfilterExecute (ops : MathOps) (cfg : AugmentPipe) (p : ℚ) (rng : RandTape)
    (debug : Option ℚ) (img : Tensor) : Tensor :=
  if 0 < cfg.imgfilter then
    let pd := fbankTaps / 2
    let ker := hzPrime ops cfg p rng debug
    convVert fbankTaps ker (convHoriz fbankTaps ker (padReflect img pd pd pd pd))
  else img

/-- The additive-noise stage (source lines 413-423): a per-batch-element
half-normal sigma, gated by `noise * p` (debug value
`erfinv(debug) * noise_std`), then fresh per-pixel Gaussian noise scaled by
that sigma is added.  The per-pixel draw `torch.randn([B,C,H,W])` is read
from the tape on every call, debug path included. -/
def noiseExecute (ops : MathOps) (cfg : AugmentPipe) (p : ℚ) (rng : RandTape) (debug : Option ℚ)
    (img : Tensor) : Tensor :=
  if 0 < cfg.noise then
    let sigma : Nat → ℚ := fun b =>
      match debug with
      | some d => ops.erfinv d * cfg.noise_std
      | none => gateSelect (rng.noiseU b) (cfg.noise * p) (|rng.noiseV b| * cfg.noise_std) 0
    ⟨img.shape, fun b c y x => img.data b c y x + rng.noisePix b c y x * sigma b⟩
  else img

/-- The cutout stage (source lines 426-443): per batch element a gated
rectangle size (the configured fraction or zero) and a uniform center; a
pixel is kept when it is outside the rectangle along x or along y
(`logical_or` of the two absolute-distance masks), and zeroed otherwise. -/
def cutoutExecute (cfg : AugmentPipe) (p : ℚ) (rng : RandTape) (debug : Option ℚ)
    (img : Tensor) : Tensor :=
  if 0 < cfg.cutout then
    let sz : Nat → ℚ := fun b =>
      match debug with
      | some _ => cfg.cutout_size
      | none => gateSelect (rng.cutoutU b) (cfg.cutout * p) cfg.cutout_size 0
    let cx : Nat → ℚ := fun b =>
      match debug with
      | some d => d
      | none => rng.cutoutCx b
    let cy : Nat → ℚ := fun b =>
      match debug with
      | some d => d
      | none => rng.cutoutCy b
    ⟨img.shape, fun b c y x =>
      let keep : Prop :=
        sz b / 2 ≤ |((x : ℚ) + 1/2) / (img.shape.w : ℚ) - cx b| ∨
          sz b / 2 ≤ |((y : ℚ) + 1/2) / (img.shape.h : ℚ) - cy b|
      img.data b c y x * (if keep then 1 else 0)⟩
  else img

/-- The full pipeline `AugmentPipe.forward` (source lines 120-445): select
geometric parameters and execute the geometric pass, then the color pass
(which may signal the invalid-input condition, propagated with no partial
result), then image-space filtering, additive noise and cutout. -/
def AugmentPipe.forward (cfg : AugmentPipe) (ops : MathOps) (p : ℚ) (rng : RandTape)
    (debug : Option ℚ) (img : Tensor) : Except String Tensor :=
  let img1 := geomExecute ops cfg p rng debug img
  match colorExecute ops cfg p rng debug img1 with
  | .error e => .error e
  | .ok img2 =>
    .ok (cutoutExecute cfg p rng debug
      (noiseExecute ops cfg p rng debug
        (imgfilterExecute ops cfg p rng debug img2)))

/-- A concrete rational instantiation of the black-box math primitives, used
to evaluate the embedding on explicit inputs.  Where a concrete evaluation
below depends on a primitive value, the stand-in agrees with the real
function at the points used: `sqrt (1/4) = 1/2`, `sqrt 1 = 1`, `sqrt 0 = 0`,
`erfinv 0 = 0` and `erfinv` nonzero away from 0 (here the identity). -/
def testOps : MathOps where
  pi := 3
  cos := fun _ => 1
  sin := fun _ => 0
  sqrt := fun q => if q = 1/4 then 1/2 else if q = 1 then 1 else 0
  erfinv := fun q => q
  exp2 := fun _ => 1
  fbank := fun _ _ => 0

/-- A constant random tape. -/
def constRng (q : ℚ) : RandTape where
  xflipV := fun _ => q
  xflipU := fun _ => q
  rot90V := fun _ => q
  rot90U := fun _ => q
  xintVx := fun _ => q
  xintVy := fun _ => q
  xintU := fun _ => q
  scaleV := fun _ => q
  scaleU := fun _ => q
  rotPreV := fun _ => q
  rotPreU := fun _ => q
  anisoV := fun _ => q
  anisoU := fun _ => q
  rotPostV := fun _ => q
  rotPostU := fun _ => q
  xfracVx := fun _ => q
  xfracVy := fun _ => q
  xfracU := fun _ => q
  brightV := fun _ => q
  brightU := fun _ => q
  contrastV := fun _ => q
  contrastU := fun _ => q
  lumaV := fun _ => q
  lumaU := fun _ => q
  hueV := fun _ => q
  hueU := fun _ => q
  satV := fun _ => q
  satU := fun _ => q
  bandV := fun _ _ => q
  bandU := fun _ _ => q
  noiseV := fun _ => q
  noiseU := fun _ => q
  noisePix := fun _ _ _ _ => q
  cutoutU := fun _ => q
  cutoutCx := fun _ => q
  cutoutCy := fun _ => q

/-- A constant-valued test batch. -/
def constImg (n c h w : Nat) (q : ℚ) : Tensor := ⟨⟨n, c, h, w⟩, fun _ _ _ _ => q⟩

/-- The default configuration: every probability multiplier zero. -/
def cfgZero : AugmentPipe := {}

/-- First pixel of a pipeline result (zero on the error branch). -/
def pix00 (e : Except String Tensor) : ℚ :=
  match e with
  | .ok t => t.data 0 0 0 0
  | .error _ => 0

/-- Shape of a pipeline result, `none` on the error branch. -/
def shapeOf (e : Except String Tensor) : Option Shape :=
  match e with
  | .ok t => some t.shape
  | .error _ => none

/-- Configuration with only additive noise enabled. -/
def cfgNoise : AugmentPipe := { noise := 1 }

/-- Tape whose per-pixel noise draw is 1 instead of 0. -/
def rngPixOne : RandTape := { constRng 0 with noisePix := fun _ _ _ _ => 1 }

/-- Configuration with only x-flip enabled. -/
def cfgFlipOnly : AugmentPipe := { xflip := 1 }

/-- Configuration with only brightness enabled. -/
def cfgBright : AugmentPipe := { brightness := 1 }

/-- Configuration with only rotation enabled, multiplier 3/4. -/
def cfgRot : AugmentPipe := { rotate := 3/4 }

/-- Configuration with only cutout enabled. -/
def cfgCut : AugmentPipe := { cutout := 1 }

/-- Configuration with the three pixel-blitting stages enabled. -/
def cfgBlit : AugmentPipe := { xflip := 1, rotate90 := 1, xint := 1 }

/-- The geometric executor never changes the tensor shape: the grid-sample
target is derived from the original height and width and the final
downsample with negative padding crops back to them exactly. -/
theorem geomExecute_shape (ops : MathOps) (cfg : AugmentPipe) (p : ℚ) (rng : RandTape)
    (debug : Option ℚ) (img : Tensor) :
    (geomExecute ops cfg p rng debug img).shape = img.shape := by
  obtain ⟨⟨n, c, h, w⟩, data⟩ := img
  unfold geomExecute
  split
  · simp [downsample2x, gridSample, upsample2x, padReflect, HzPad, HzGeomLen, Shape.mk.injEq]
    omega
  · rfl

/-- The color executor succeeds on 1- and 3-channel batches and preserves
the shape. -/
theorem colorExecute_ok_shape (ops : MathOps) (cfg : AugmentPipe) (p : ℚ) (rng : RandTape)
    (debug : Option ℚ) (img : Tensor) (hc : img.shape.c = 1 ∨ img.shape.c = 3) :
    ∃ t, colorExecute ops cfg p rng debug img = .ok t ∧ t.shape = img.shape := by
  unfold colorExecute
  rcases hc with h1 | h3
  · by_cases ht : colorTouched cfg img.shape.c
    · rw [if_pos ht, if_neg (by omega), if_pos h1]
      exact ⟨_, rfl, rfl⟩
    · rw [if_neg ht]
      exact ⟨img, rfl, rfl⟩
  · by_cases ht : colorTouched cfg img.shape.c
    · rw [if_pos ht, if_pos h3]
      exact ⟨_, rfl, rfl⟩
    · rw [if_neg ht]
      exact ⟨img, rfl, rfl⟩

/-- The image-space filtering stage preserves the shape: reflect padding by
half the tap count exactly cancels the two valid convolutions. -/
theorem imgfilterExecute_shape (ops : MathOps) (cfg : AugmentPipe) (p : ℚ) (rng : RandTape)
    (debug : Option ℚ) (img : Tensor) :
    (imgfilterExecute ops cfg p rng debug img).shape = img.shape := by
  obtain ⟨⟨n, c, h, w⟩, data⟩ := img
  unfold imgfilterExecute
  split
  · simp [convVert, convHoriz, padReflect, fbankTaps, Shape.mk.injEq]
  · rfl

/-- The additive-noise stage preserves the shape. -/
theorem noiseExecute_shape (ops : MathOps) (cfg : AugmentPipe) (p : ℚ) (rng : RandTape)
    (debug : Option ℚ) (img : Tensor) :
    (noiseExecute ops cfg p rng debug img).shape = img.shape := by
  unfold noiseExecute
  split
  · rfl
  · rfl

/-- The cutout stage preserves the shape. -/
theorem cutoutExecute_shape (cfg : AugmentPipe) (p : ℚ) (rng : RandTape)
    (debug : Option ℚ) (img : Tensor) :
    (cutoutExecute cfg p rng debug img).shape = img.shape := by
  unfold cutoutExecute
  split
  · rfl
  · rfl

/-- Claim C1: with every probability multiplier zero, `forward` returns the
input batch unchanged (bit-identical) for any strength, tape, debug value
and batch, the accumulated geometric and color matrices stay the identity,
and every executor short-circuits. -/
theorem identity_property (ops : MathOps) (cfg : AugmentPipe) (p : ℚ) (rng : RandTape)
    (debug : Option ℚ) (img : Tensor)
    (h : cfg.xflip = 0 ∧ cfg.rotate90 = 0 ∧ cfg.xint = 0 ∧ cfg.scale = 0 ∧ cfg.rotate = 0 ∧
      cfg.aniso = 0 ∧ cfg.xfrac = 0 ∧ cfg.brightness = 0 ∧ cfg.contrast = 0 ∧
      cfg.lumaflip = 0 ∧ cfg.hue = 0 ∧ cfg.saturation = 0 ∧ cfg.imgfilter = 0 ∧
      cfg.noise = 0 ∧ cfg.cutout = 0) :
    AugmentPipe.forward cfg ops p rng debug img = .ok img ∧
      (∀ b, geomGInv ops cfg p rng debug img.shape.h img.shape.w b = 1) ∧
      (∀ nc b, colorC ops cfg p rng debug nc b = 1) := by
  obtain ⟨h1, h2, h3, h4, h5, h6, h7, h8, h9, h10, h11, h12, h13, h14, h15⟩ := h
  refine ⟨?_, ?_, ?_⟩
  · simp [AugmentPipe.forward, geomExecute, geomTouched, colorExecute, colorTouched,
      imgfilterExecute, noiseExecute, cutoutExecute, h1, h2, h3, h4, h5, h6, h7, h8, h9,
      h10, h11, h12, h13, h14, h15]
  · intro b
    simp [geomGInv, h1, h2, h3, h4, h5, h6, h7]
  · intro nc b
    simp [colorC, brightnessStage, contrastStage, lumaflipStage, hueStage, satStage,
      h8, h9, h10, h11, h12]

/-- Witness for C1: the all-zero configuration on a concrete 2x3x4x4 batch
with a nonzero strength, tape and debug fraction. -/
theorem identity_property_witness :
    AugmentPipe.forward cfgZero testOps (5/7) (constRng (1/3)) (some (2/3)) (constImg 2 3 4 4 9) =
      .ok (constImg 2 3 4 4 9) :=
  (identity_property testOps cfgZero (5/7) (constRng (1/3)) (some (2/3)) (constImg 2 3 4 4 9)
    (by decide)).1

/-- Claim C2, counterexample: with the noise stage enabled, two calls with
the same fixed debug fraction but different random tapes give different
outputs — the additive-noise stage draws fresh per-pixel noise even on the
debug path (only its sigma is deterministic), so randomness is consulted. -/
theorem debug_path_consults_randomness :
    pix00 (AugmentPipe.forward cfgNoise testOps 1 (constRng 0) (some (1/2)) (constImg 1 1 1 1 0)) ≠
      pix00 (AugmentPipe.forward cfgNoise testOps 1 rngPixOne (some (1/2)) (constImg 1 1 1 1 0)) := by
  decide

/-- Claim C2, amended: with the additive-noise multiplier zero, two calls to
`forward` with the same fixed debug fraction (same batch, configuration and
strength) yield identical outputs whatever the two random tapes are: every
other stage overwrites its draws with deterministic debug values. -/
theorem debug_determinism_noise_disabled (ops : MathOps) (cfg : AugmentPipe) (p : ℚ)
    (rng rng' : RandTape) (d : ℚ) (img : Tensor) (hn : cfg.noise = 0) :
    AugmentPipe.forward cfg ops p rng (some d) img =
      AugmentPipe.forward cfg ops p rng' (some d) img := by
  have hskip : ∀ r t, noiseExecute ops cfg p r (some d) t = t := by
    intro r t
    simp [noiseExecute, hn]
  simp only [AugmentPipe.forward, hskip]
  rfl

/-- Witness for the amended C2 at a concrete configuration, batch and pair
of tapes. -/
theorem debug_determinism_noise_disabled_witness :
    AugmentPipe.forward cfgZero testOps 1 (constRng 0) (some (1/2)) (constImg 1 1 1 1 0) =
      AugmentPipe.forward cfgZero testOps 1 (constRng 1) (some (1/2)) (constImg 1 1 1 1 0) :=
  debug_determinism_noise_disabled testOps cfgZero 1 (constRng 0) (constRng 1) (1/2)
    (constImg 1 1 1 1 0) (by decide)

/-- Claim C3, counterexample: with `xflip = 1` and a tape whose gate draw
does not fire, every geometric gate selects its identity value and the
accumulated `G_inv` equals the identity matrix, yet the executor still runs
(the source skips on object identity `G_inv is not I_3`, which only holds
when no geometric block was entered at all). -/
theorem geom_value_identity_still_executes :
    geomGInv testOps cfgFlipOnly 1 (constRng 1) none 1 1 0 = 1 ∧ geomTouched cfgFlipOnly :=
  ⟨by decide, by decide⟩

/-- Claim C3, amended: the geometric executor skips the five steps iff no
geometric stage is enabled (all seven geometric multipliers non-positive) —
a touched flag, not a value comparison — and when it skips the image passes
through the stage unchanged. -/
theorem geom_skip_iff_no_stage_enabled (ops : MathOps) (cfg : AugmentPipe) (p : ℚ)
    (rng : RandTape) (debug : Option ℚ) (img : Tensor) :
    (¬ geomTouched cfg ↔ cfg.xflip ≤ 0 ∧ cfg.rotate90 ≤ 0 ∧ cfg.xint ≤ 0 ∧ cfg.scale ≤ 0 ∧
      cfg.rotate ≤ 0 ∧ cfg.aniso ≤ 0 ∧ cfg.xfrac ≤ 0) ∧
      (¬ geomTouched cfg → geomExecute ops cfg p rng debug img = img) := by
  constructor
  · simp [geomTouched, not_or, not_lt]
  · intro hng
    unfold geomExecute
    rw [if_neg hng]

/-- Witness for the amended C3: with the all-zero configuration the
geometric stage is a pure passthrough on a concrete batch. -/
theorem geom_skip_iff_no_stage_enabled_witness :
    geomExecute testOps cfgZero 1 (constRng 0) none (constImg 1 3 2 2 5) = constImg 1 3 2 2 5 :=
  (geom_skip_iff_no_stage_enabled testOps cfgZero 1 (constRng 0) none
    (constImg 1 3 2 2 5)).2 (by decide)

/-- Claim C4, counterexample: a 2-channel batch with the all-zero
configuration is returned unchanged with no error — the invalid-input check
lives inside the color executor, which is skipped when no color block was
entered. -/
theorem two_channel_no_color_no_error :
    AugmentPipe.forward cfgZero testOps 1 (constRng 0) none (constImg 1 2 4 4 7) =
      .ok (constImg 1 2 4 4 7) := rfl

/-- Claim C4, amended: on a 2-channel batch, whenever at least one color
multiplier (brightness, contrast, lumaflip, hue, saturation) is positive,
`forward` raises the invalid-input error synchronously and produces no
partial result. -/
theorem color_channel_error (ops : MathOps) (cfg : AugmentPipe) (p : ℚ) (rng : RandTape)
    (debug : Option ℚ) (img : Tensor) (hc : img.shape.c = 2)
    (hcol : 0 < cfg.brightness ∨ 0 < cfg.contrast ∨ 0 < cfg.lumaflip ∨ 0 < cfg.hue ∨
      0 < cfg.saturation) :
    AugmentPipe.forward cfg ops p rng debug img = .error colorErrMsg := by
  have hgc : (geomExecute ops cfg p rng debug img).shape.c = 2 := by
    rw [geomExecute_shape]; exact hc
  have htch : colorTouched cfg (geomExecute ops cfg p rng debug img).shape.c := by
    rw [hgc]
    rcases hcol with h | h | h | h | h
    · exact Or.inl h
    · exact Or.inr (Or.inl h)
    · exact Or.inr (Or.inr (Or.inl h))
    · exact Or.inr (Or.inr (Or.inr (Or.inl ⟨h, by omega⟩)))
    · exact Or.inr (Or.inr (Or.inr (Or.inr ⟨h, by omega⟩)))
  have hcex : colorExecute ops cfg p rng debug (geomExecute ops cfg p rng debug img) =
      .error colorErrMsg := by
    unfold colorExecute
    rw [if_pos htch, if_neg (by omega), if_neg (by omega)]
  simp only [AugmentPipe.forward]
  rw [hcex]

/-- Witness for the amended C4: brightness enabled, 2-channel batch, error
raised. -/
theorem color_channel_error_witness :
    AugmentPipe.forward cfgBright testOps 1 (constRng 0) none (constImg 1 2 4 4 7) =
      .error colorErrMsg :=
  color_channel_error testOps cfgBright 1 (constRng 0) none (constImg 1 2 4 4 7)
    (by decide) (Or.inl (by decide))

/-- Claim C5: each rotation stage is gated with per-stage probability
`p_rot = 1 - sqrt(1 - rotate * p)` (for `rotate * p` in `[0,1]`, where the
clamp is inert), and the probability that at least one of two independent
such gates fires, `1 - (1 - p_rot)^2`, equals exactly `rotate * p` — not
`1-(1-q p)^2` of the raw product and not `2 q p`.  The square-root exactness
hypothesis is the defining property of the black-box `sqrt` primitive. -/
theorem rotation_split_probability (ops : MathOps) (cfg : AugmentPipe) (p : ℚ)
    (h0 : 0 ≤ cfg.rotate * p) (h1 : cfg.rotate * p ≤ 1)
    (hs : ops.sqrt (1 - cfg.rotate * p) ^ 2 = 1 - cfg.rotate * p) :
    pRot ops cfg p = 1 - ops.sqrt (1 - cfg.rotate * p) ∧
      1 - (1 - pRot ops cfg p) ^ 2 = cfg.rotate * p := by
  have hclamp : min (max (1 - cfg.rotate * p) 0) 1 = 1 - cfg.rotate * p := by
    rw [max_eq_left (by linarith), min_eq_left (by linarith)]
  refine ⟨by rw [pRot, hclamp], ?_⟩
  have h2 : 1 - pRot ops cfg p = ops.sqrt (1 - cfg.rotate * p) := by
    rw [pRot, hclamp]; ring
  rw [h2, hs]; ring

/-- Witness for C5 at `rotate = 3/4`, `p = 1`, where the rational stand-in
square root is exact: `sqrt (1/4) = 1/2`. -/
theorem rotation_split_probability_witness :
    pRot testOps cfgRot 1 = 1 - testOps.sqrt (1 - cfgRot.rotate * 1) ∧
      1 - (1 - pRot testOps cfgRot 1) ^ 2 = cfgRot.rotate * 1 :=
  rotation_split_probability testOps cfgRot 1 (by decide) (by decide) (by decide)

/-- Claim C6: for every valid input (channels 1 or 3, height and width at
least 1), every configuration, strength, tape and debug value, `forward`
succeeds and returns a tensor of exactly the input shape — the geometric
pad, upsample, resample, downsample-and-crop sequence restores the original
height and width. -/
theorem shape_invariance (ops : MathOps) (cfg : AugmentPipe) (p : ℚ) (rng : RandTape)
    (debug : Option ℚ) (img : Tensor)
    (hc : img.shape.c = 1 ∨ img.shape.c = 3) (hh : 1 ≤ img.shape.h) (hw : 1 ≤ img.shape.w) :
    shapeOf (AugmentPipe.forward cfg ops p rng debug img) = some img.shape := by
  obtain ⟨t, ht, hts⟩ := colorExecute_ok_shape ops cfg p rng debug
    (geomExecute ops cfg p rng debug img)
    (by rw [geomExecute_shape]; exact hc)
  simp only [AugmentPipe.forward]
  rw [ht]
  simp only [shapeOf, cutoutExecute_shape, noiseExecute_shape, imgfilterExecute_shape, hts,
    geomExecute_shape]

/-- Witness for C6 on a concrete 2x3x5x7 batch. -/
theorem shape_invariance_witness :
    shapeOf (AugmentPipe.forward cfgZero testOps 1 (constRng 0) none (constImg 2 3 5 7 1)) =
      some (constImg 2 3 5 7 1).shape :=
  shape_invariance testOps cfgZero 1 (constRng 0) none (constImg 2 3 5 7 1)
    (by decide) (by decide) (by decide)

/-- Claim C7: when the probability product exceeds 1, the gate always fires:
the uniform draw lies in `[0,1)`, hence below the threshold, so the sampled
value and never the identity value is selected — always-apply semantics,
not an error. -/
theorem oversaturated_gate_always_fires {α : Type} (u q p : ℚ) (v idv : α)
    (h0 : 0 ≤ u) (h1 : u < 1) (hq : 1 < q * p) :
    gateSelect u (q * p) v idv = v := by
  unfold gateSelect
  exact if_pos (h1.trans hq)

/-- Witness for C7 at `u = 1/2`, `q * p = 3`. -/
theorem oversaturated_gate_always_fires_witness :
    gateSelect (1/2 : ℚ) ((3/2) * 2) (5 : ℚ) 7 = 5 :=
  oversaturated_gate_always_fires (1/2) (3/2) 2 5 7 (by decide) (by decide) (by decide)

/-- Claim C8: when cutout fires for a batch element, the output pixel is
zero exactly on the interior rectangle (both absolute-distance comparisons
strict) and equals the input pixel everywhere else: the kept mask is the OR
of the two per-axis outside comparisons, a rectangle and not a cross; for a
nonzero input pixel the output is zero iff the pixel is interior. -/
theorem cutout_zeroes_interior_rectangle (cfg : AugmentPipe) (p : ℚ) (rng : RandTape)
    (img : Tensor) (b c y x : Nat)
    (hcut : 0 < cfg.cutout) (hfire : rng.cutoutU b < cfg.cutout * p) :
    ((cutoutExecute cfg p rng none img).data b c y x =
      if |((x : ℚ) + 1/2) / (img.shape.w : ℚ) - rng.cutoutCx b| < cfg.cutout_size / 2 ∧
          |((y : ℚ) + 1/2) / (img.shape.h : ℚ) - rng.cutoutCy b| < cfg.cutout_size / 2
      then 0 else img.data b c y x) ∧
      (img.data b c y x ≠ 0 →
        ((cutoutExecute cfg p rng none img).data b c y x = 0 ↔
          |((x : ℚ) + 1/2) / (img.shape.w : ℚ) - rng.cutoutCx b| < cfg.cutout_size / 2 ∧
            |((y : ℚ) + 1/2) / (img.shape.h : ℚ) - rng.cutoutCy b| < cfg.cutout_size / 2)) := by
  have hmain : (cutoutExecute cfg p rng none img).data b c y x =
      if |((x : ℚ) + 1/2) / (img.shape.w : ℚ) - rng.cutoutCx b| < cfg.cutout_size / 2 ∧
          |((y : ℚ) + 1/2) / (img.shape.h : ℚ) - rng.cutoutCy b| < cfg.cutout_size / 2
      then 0 else img.data b c y x := by
    simp only [cutoutExecute, if_pos hcut, gateSelect, if_pos hfire]
    by_cases hA : cfg.cutout_size / 2 ≤ |((x : ℚ) + 1/2) / (img.shape.w : ℚ) - rng.cutoutCx b|
    · rw [if_pos (Or.inl hA), mul_one, if_neg (fun hh => absurd hh.1 (not_lt.mpr hA))]
    · by_cases hB : cfg.cutout_size / 2 ≤ |((y : ℚ) + 1/2) / (img.shape.h : ℚ) - rng.cutoutCy b|
      · rw [if_pos (Or.inr hB), mul_one, if_neg (fun hh => absurd hh.2 (not_lt.mpr hB))]
      · rw [if_neg (fun hh => hh.elim hA hB), mul_zero,
          if_pos ⟨not_le.mp hA, not_le.mp hB⟩]
  refine ⟨hmain, fun hnz => ?_⟩
  rw [hmain]
  by_cases hAB : |((x : ℚ) + 1/2) / (img.shape.w : ℚ) - rng.cutoutCx b| < cfg.cutout_size / 2 ∧
      |((y : ℚ) + 1/2) / (img.shape.h : ℚ) - rng.cutoutCy b| < cfg.cutout_size / 2
  · rw [if_pos hAB]
    exact iff_of_true rfl hAB
  · rw [if_neg hAB]
    exact iff_of_false hnz hAB

/-- Witness for C8: cutout enabled and fired on a 1x1x1x1 batch; the single
pixel is outside the rectangle centered at 0 and is kept. -/
theorem cutout_zeroes_interior_rectangle_witness :
    (cutoutExecute cfgCut 1 (constRng 0) none (constImg 1 1 1 1 1)).data 0 0 0 0 =
      if |(((0 : Nat) : ℚ) + 1/2) / (((constImg 1 1 1 1 1).shape.w : Nat) : ℚ) -
            (constRng 0).cutoutCx 0| < cfgCut.cutout_size / 2 ∧
          |(((0 : Nat) : ℚ) + 1/2) / (((constImg 1 1 1 1 1).shape.h : Nat) : ℚ) -
            (constRng 0).cutoutCy 0| < cfgCut.cutout_size / 2
      then 0 else (constImg 1 1 1 1 1).data 0 0 0 0 :=
  (cutout_zeroes_interior_rectangle cfgCut 1 (constRng 0) (constImg 1 1 1 1 1) 0 0 0 0
    (by decide) (by decide)).1

/-- Claim C9: with flip, 90-degree rotation and integer translation enabled,
all other geometric stages off, and deterministic injected parameters (the
debug path), the accumulated inverse matrix equals the explicit product of
the three stage inverses in exactly that left-to-right order. -/
theorem blit_composition_order (ops : MathOps) (cfg : AugmentPipe) (p : ℚ) (rng : RandTape)
    (d : ℚ) (h w b : Nat)
    (hx : 0 < cfg.xflip) (h90 : 0 < cfg.rotate90) (hxi : 0 < cfg.xint)
    (hsc : cfg.scale ≤ 0) (hro : cfg.rotate ≤ 0) (han : cfg.aniso ≤ 0) (hxf : cfg.xfrac ≤ 0) :
    geomGInv ops cfg p rng (some d) h w b =
      scale2d_inv (1 - 2 * ((⌊d * 2⌋ : ℤ) : ℚ)) 1 *
        rotate2d_inv ops (-(ops.pi / 2) * ((⌊d * 4⌋ : ℤ) : ℚ)) *
        translate2d_inv ((round ((d * 2 - 1) * cfg.xint_max * (w : ℚ)) : ℤ) : ℚ)
          ((round ((d * 2 - 1) * cfg.xint_max * (h : ℚ)) : ℤ) : ℚ) := by
  simp only [geomGInv, xflipI, rot90I, xintT, if_pos hx, if_pos h90, if_pos hxi,
    if_neg (not_lt.mpr hsc), if_neg (not_lt.mpr hro), if_neg (not_lt.mpr han),
    if_neg (not_lt.mpr hxf), one_mul]

/-- Witness for C9 with the three blitting stages enabled, debug fraction
9/10, on a 4x4 image. -/
theorem blit_composition_order_witness :
    geomGInv testOps cfgBlit 1 (constRng 0) (some (9/10)) 4 4 0 =
      scale2d_inv (1 - 2 * ((⌊(9/10 : ℚ) * 2⌋ : ℤ) : ℚ)) 1 *
        rotate2d_inv testOps (-(testOps.pi / 2) * ((⌊(9/10 : ℚ) * 4⌋ : ℤ) : ℚ)) *
        translate2d_inv ((round (((9/10 : ℚ) * 2 - 1) * cfgBlit.xint_max * ((4 : Nat) : ℚ)) : ℤ) : ℚ)
          ((round (((9/10 : ℚ) * 2 - 1) * cfgBlit.xint_max * ((4 : Nat) : ℚ)) : ℤ) : ℚ) :=
  blit_composition_order testOps cfgBlit 1 (constRng 0) (9/10) 4 4 0 (by decide) (by decide)
    (by decide) (by decide) (by decide) (by decide) (by decide)

/-- Claim C10: for a 1-channel batch the hue-rotation and saturation blocks
are skipped entirely — the accumulated color matrix is exactly the
brightness, contrast and luma-flip accumulation — for every configuration,
strength, tape and debug value. -/
theorem grayscale_skips_hue_saturation (ops : MathOps) (cfg : AugmentPipe) (p : ℚ)
    (rng : RandTape) (debug : Option ℚ) (b : Nat) :
    colorC ops cfg p rng debug 1 b =
      lumaflipStage ops cfg p rng debug b
        (contrastStage ops cfg p rng debug b
          (brightnessStage ops cfg p rng debug b 1)) := by
  simp [colorC, hueStage, satStage]
